import Mathlib

/-!
Shallow embedding of the caching layer of the composio-mastra Gmail
integration (src/mastra/agents/gmailAgent.ts and gmail-auth.ts).

The four module-level JS `Map`s become association lists inside an
explicit `AgentState`; effectful operations take the state and return a
new state together with the values and observable effects (fetch
invocations, client disposals, disposal errors).  Remote calls
(`composio.connectedAccounts.list`, `mcpClient.getTools`,
`composio.toolkits.authorize`, `client.disconnect`) are oracles passed
in as arguments: an `Except` value for a call that can fail, and an
environment function `disposeFails` saying whether a given client's
`disconnect` throws.  `Date.now()` becomes an explicit `now : Nat`
argument (milliseconds).
-/

namespace GmailCache

/-- Association-list lookup, mirroring JS `Map.get`: first (and by the
`mapSet`and`mapDelete` discipline, only) binding for the key. -/
def mapGet {α : Type} (m : List (String × α)) (k : String) : Option α :=
  match m with
  | [] => none
  | (k', v) :: rest => if k' = k then some v else mapGet rest k

/-- Association-list deletion, mirroring JS `Map.delete`. -/
def mapDelete {α : Type} (m : List (String × α)) (k : String) : List (String × α) :=
  match m with
  | [] => []
  | (k', v) :: rest => if k' = k then mapDelete rest k else (k', v) :: mapDelete rest k

/-- Association-list insertion/overwrite, mirroring JS `Map.set`. -/
def mapSet {α : Type} (m : List (String × α)) (k : String) (v : α) : List (String × α) :=
  (k, v) :: mapDelete m k

/-- JS truthiness of an optional string: `undefined` and the empty
string are falsy. -/
def jsTruthy (s : Option String) : Option String :=
  match s with
  | some s => if s = "" then none else some s
  | none => none

/-- A connected-account record as consumed from
`composio.connectedAccounts.list` (only the fields the code reads). -/
structure Conn where
  id : String
  toolkitSlug : String
  status : String
deriving Repr, DecidableEq

/-- The auth-status value cached in `authStatusCache`
(`\x7b connected, connectionId, timestamp \x7d`). -/
structure AuthStatus where
  connected : Bool
  connectionId : Option String
  timestamp : Nat
deriving Repr, DecidableEq

/-- A tool set as returned by `mcpClient.getTools()`: modelled as the
list of tool names (the code treats it as an opaque mapping). -/
abbrev ToolSet := List String

/-- An `MCPClient` handle: its constructor-supplied id and server URL. -/
structure MCPClient where
  id : String
  url : String
deriving Repr, DecidableEq

/-- The module-level mutable state of gmailAgent.ts: the four caches. -/
structure AgentState where
  mcpClientCache : List (String × MCPClient)
  toolsCache : List (String × ToolSet)
  authStatusCache : List (String × AuthStatus)
  userSessionCache : List (String × String)
deriving Repr, DecidableEq

/-- The state with all four maps empty (module load time). -/
def emptyState : AgentState := ⟨[], [], [], []⟩

/-- External behaviour of `client.disconnect()`: whether it throws for a
given client id. -/
structure Env where
  disposeFails : String → Bool

/-- Result of a state-changing cache operation: the new state, the ids
of clients on which `disconnect()` was attempted, and the ids whose
`disconnect()` threw (the error is logged, never propagated). -/
structure CacheEffect where
  state : AgentState
  disposed : List String
  errors : List String
deriving Repr

/-- `CACHE_TTL = 5 * 60 * 1000` (5 minutes in milliseconds). -/
def CACHE_TTL : Nat := 5 * 60 * 1000

/-- `isCacheValid`: `Date.now() - timestamp < CACHE_TTL`.  With `Nat`
truncating subtraction a future timestamp gives `0 < CACHE_TTL`, the
same verdict as the negative JS difference. -/
def isCacheValid (timestamp now : Nat) : Bool :=
  now - timestamp < CACHE_TTL

/-- `cleanupMCPClient(key)`: if a client is cached under `key`, attempt
`disconnect()` (catching any error) and delete the client entry; in all
cases delete the tools entry for `key`. -/
def cleanupMCPClient (env : Env) (st : AgentState) (key : String) : CacheEffect :=
  match mapGet st.mcpClientCache key with
  | some client =>
      { state := { st with
          mcpClientCache := mapDelete st.mcpClientCache key,
          toolsCache := mapDelete st.toolsCache key },
        disposed := [client.id],
        errors := if env.disposeFails client.id then [client.id] else [] }
  | none =>
      { state := { st with toolsCache := mapDelete st.toolsCache key },
        disposed := [],
        errors := [] }

/-- `connections.items.find(conn => conn.toolkit.slug === 'gmail' &&
conn.status === 'ACTIVE')`. -/
def findGmailConn (items : List Conn) : Option Conn :=
  items.find? (fun c => c.toolkitSlug == "gmail" && c.status == "ACTIVE")

/-- The fresh auth status built by `getCachedAuthStatus` from the
outcome of the remote list call: on success the gmail connection is
looked up (`connectionId: gmailConnection?.id || null`, so an empty id
is also null); on a caught error a not-connected record is built. -/
def freshAuthStatus (fetchResult : Except String (List Conn)) (now : Nat) : AuthStatus :=
  match fetchResult with
  | .ok items =>
      let gmailConnection := findGmailConn items
      { connected := gmailConnection.isSome,
        connectionId := jsTruthy (gmailConnection.map (·.id)),
        timestamp := now }
  | .error _ =>
      { connected := false, connectionId := none, timestamp := now }

/-- Result of `getCachedAuthStatus`: new state, the returned status and
whether the remote list call was performed. -/
structure AuthFetchOutcome where
  state : AgentState
  result : AuthStatus
  fetched : Bool
deriving Repr, DecidableEq

/-- `getCachedAuthStatus(userId)`: return the cached entry under
`auth-userId` when present and TTL-valid; otherwise perform the remote
list call (`fetchResult` oracle), cache the resulting status — also on
a caught error — and return it. -/
def getCachedAuthStatus (st : AgentState) (userId : String) (now : Nat)
    (fetchResult : Except String (List Conn)) : AuthFetchOutcome :=
  let cacheKey := "auth-" ++ userId
  let doFetch : AuthFetchOutcome :=
    let authStatus := freshAuthStatus fetchResult now
    { state := { st with authStatusCache := mapSet st.authStatusCache cacheKey authStatus },
      result := authStatus,
      fetched := true }
  match mapGet st.authStatusCache cacheKey with
  | some cached =>
      if isCacheValid cached.timestamp now then
        { state := st, result := cached, fetched := false }
      else doFetch
  | none => doFetch

/-- Result of `getCachedTools`: new state, returned tool set, whether
`getTools()` was invoked, and any disposal effects of the error-path
cleanup. -/
structure ToolsFetchOutcome where
  state : AgentState
  result : ToolSet
  fetched : Bool
  disposed : List String
  errors : List String
deriving Repr

/-- `getCachedTools(cacheKey, url, userId)`: return the cached tool set
when present (no TTL check in the code); otherwise reuse or create the
MCP client for `cacheKey`, call `getTools()` (the `fetchResult`
oracle), and on success cache and return the tools; on a caught error
run `cleanupMCPClient(cacheKey)` and return an empty tool set. -/
def getCachedTools (env : Env) (st : AgentState) (cacheKey url userId : String)
    (now : Nat) (fetchResult : Except String ToolSet) : ToolsFetchOutcome :=
  match mapGet st.toolsCache cacheKey with
  | some tools =>
      { state := st, result := tools, fetched := false, disposed := [], errors := [] }
  | none =>
      let st1 : AgentState :=
        match mapGet st.mcpClientCache cacheKey with
        | some _ => st
        | none =>
            let mcpClient := MCPClient.mk ("gmail-mcp-" ++ userId ++ "-" ++ toString now) url
            { st with mcpClientCache := mapSet st.mcpClientCache cacheKey mcpClient }
      match fetchResult with
      | .ok tools =>
          { state := { st1 with toolsCache := mapSet st1.toolsCache cacheKey tools },
            result := tools, fetched := true, disposed := [], errors := [] }
      | .error _ =>
          let r := cleanupMCPClient env st1 cacheKey
          { state := r.state, result := [], fetched := true,
            disposed := r.disposed, errors := r.errors }

/-- The per-key sweep of `cleanupGmailAgent`: run `cleanupMCPClient` on
each key in turn, threading the state and concatenating effects. -/
def cleanupKeys (env : Env) (keys : List String) (st : AgentState) : CacheEffect :=
  match keys with
  | [] => { state := st, disposed := [], errors := [] }
  | k :: ks =>
      let r := cleanupMCPClient env st k
      let rest := cleanupKeys env ks r.state
      { state := rest.state,
        disposed := r.disposed ++ rest.disposed,
        errors := r.errors ++ rest.errors }

/-- `cleanupGmailAgent()`: `cleanupMCPClient` on every key of
`mcpClientCache`, then `clear()` on `toolsCache`, `authStatusCache` and
`userSessionCache`. -/
def cleanupGmailAgent (env : Env) (st : AgentState) : CacheEffect :=
  let sweep := cleanupKeys env (st.mcpClientCache.map (·.1)) st
  { sweep with state := { sweep.state with
      toolsCache := [], authStatusCache := [], userSessionCache := [] } }

/-- `clearGmailAgentCache(userId)`: delete the `auth-userId` auth-status
entry, then `cleanupMCPClient` on the two fixed keys
`gmail-userId-unauth` and `gmail-userId-null`. -/
def clearGmailAgentCache (env : Env) (st : AgentState) (userId : String) : CacheEffect :=
  let st1 := { st with authStatusCache := mapDelete st.authStatusCache ("auth-" ++ userId) }
  let r1 := cleanupMCPClient env st1 ("gmail-" ++ userId ++ "-unauth")
  let r2 := cleanupMCPClient env r1.state ("gmail-" ++ userId ++ "-null")
  { state := r2.state, disposed := r1.disposed ++ r2.disposed,
    errors := r1.errors ++ r2.errors }

/-- The connection request returned by `composio.toolkits.authorize`. -/
structure ConnReq where
  redirectUrl : String
  id : String
deriving Repr, DecidableEq

/-- Result of the `authorize_gmail` tool's `execute`. -/
structure AuthorizeResult where
  state : AgentState
  success : Bool
  authUrl : Option String
  connectionId : Option String
deriving Repr, DecidableEq

/-- The `execute` body of the `authorize_gmail` tool: on a successful
`composio.toolkits.authorize` call, delete the `auth-userId` auth-status
entry and return the redirect data; on a caught error leave the state
unchanged and return a failure value.  No client or tool entry is
touched. -/
def authorizeToolExecute (st : AgentState) (userId : String)
    (authResult : Except String ConnReq) : AuthorizeResult :=
  match authResult with
  | .ok connectionRequest =>
      { state := { st with
          authStatusCache := mapDelete st.authStatusCache ("auth-" ++ userId) },
        success := true,
        authUrl := some connectionRequest.redirectUrl,
        connectionId := some connectionRequest.id }
  | .error _ =>
      { state := st, success := false, authUrl := none, connectionId := none }

/-- The runtime context as read by `getUserId`: the optional values of
`get('userId')` and `get('sessionId')`. -/
structure RuntimeCtx where
  userId : Option String
  sessionId : Option String
deriving Repr, DecidableEq

/-- Result of `getUserId`: the returned id and the (possibly updated)
session map. -/
structure GetUserIdResult where
  userId : String
  sessions : List (String × String)
deriving Repr, DecidableEq

/-- `getUserId(runtimeContext?)`: a truthy context userId is returned
as-is; otherwise the (truthy) context sessionId or `default-session`
selects a slot in `userSessionCache`, reusing a stored id or storing the
freshly generated UUID (`freshUuid` oracle). -/
def getUserId (sessions : List (String × String)) (ctx : Option RuntimeCtx)
    (freshUuid : String) : GetUserIdResult :=
  match jsTruthy (ctx.bind (·.userId)) with
  | some contextUserId => { userId := contextUserId, sessions := sessions }
  | none =>
      let sessionId :=
        match jsTruthy (ctx.bind (·.sessionId)) with
        | some s => s
        | none => "default-session"
      match mapGet sessions sessionId with
      | some existingUserId => { userId := existingUserId, sessions := sessions }
      | none =>
          { userId := freshUuid, sessions := mapSet sessions sessionId freshUuid }

/-- The value returned by `GmailAuth.checkConnection` (gmail-auth.ts):
always a plain record, never a thrown error. -/
structure ConnStatus where
  connected : Bool
  connectionId : Option String
  message : Option String
  error : Option String
deriving Repr, DecidableEq

/-- `GmailAuth.checkConnection()`: list connected accounts (oracle), find
an ACTIVE gmail connection; every provider error is caught and turned
into a `connected := false` record carrying an `error` string. -/
def checkConnection (listResult : Except String (List Conn)) : ConnStatus :=
  match listResult with
  | .ok items =>
      let gmailConnection := findGmailConn items
      { connected := gmailConnection.isSome,
        connectionId := gmailConnection.map (·.id),
        message := some (if gmailConnection.isSome then
            "Gmail is connected and ready to use."
          else
            "Gmail is not connected. Use initiateConnection to connect."),
        error := none }
  | .error e =>
      { connected := false,
        connectionId := none,
        message := none,
        error := some ("Failed to check Gmail connection: " ++ e) }

/-- `GmailAuth.getConnectedAccountId()`: the connection id when
`checkConnection` reports connected with a truthy id, else `null`. -/
def getConnectedAccountId (listResult : Except String (List Conn)) : Option String :=
  let connectionStatus := checkConnection listResult
  match connectionStatus.connectionId with
  | some id => if connectionStatus.connected && id != "" then some id else none
  | none => none

end GmailCache

namespace GmailCache

/-! ### Map lemmas -/

theorem mapGet_mapSet_self {α : Type} (m : List (String × α)) (k : String) (v : α) :
    mapGet (mapSet m k v) k = some v := by
  simp [mapGet, mapSet]

theorem mapGet_mapDelete_self {α : Type} (m : List (String × α)) (k : String) :
    mapGet (mapDelete m k) k = none := by
  induction m with
  | nil => rfl
  | cons p rest ih =>
      obtain ⟨k', v⟩ := p
      by_cases h : k' = k
      · simpa [mapDelete, h] using ih
      · simpa [mapDelete, mapGet, h] using ih

theorem mapDelete_mapDelete_self {α : Type} (m : List (String × α)) (k : String) :
    mapDelete (mapDelete m k) k = mapDelete m k := by
  induction m with
  | nil => rfl
  | cons p rest ih =>
      obtain ⟨k', v⟩ := p
      by_cases h : k' = k
      · simpa [mapDelete, h] using ih
      · simpa [mapDelete, h] using ih

theorem mapGet_eq_none_of_not_mem {α : Type} (m : List (String × α)) (k : String)
    (h : k ∉ m.map Prod.fst) : mapGet m k = none := by
  induction m with
  | nil => rfl
  | cons p rest ih =>
      obtain ⟨k', v⟩ := p
      simp only [List.map_cons, List.mem_cons] at h
      push_neg at h
      have hne : k' ≠ k := fun hk => h.1 hk.symm
      simpa [mapGet, hne] using ih h.2

theorem mapDelete_eq_self_of_not_mem {α : Type} (m : List (String × α)) (k : String)
    (h : k ∉ m.map Prod.fst) : mapDelete m k = m := by
  induction m with
  | nil => rfl
  | cons p rest ih =>
      obtain ⟨k', v⟩ := p
      simp only [List.map_cons, List.mem_cons] at h
      push_neg at h
      have hne : k' ≠ k := fun hk => h.1 hk.symm
      simpa [mapDelete, hne] using ih h.2

/-! ### Invariants of the fetch operations -/

/-- After any `getCachedAuthStatus` call, the returned status is exactly
the entry stored under `auth-userId`. -/
theorem getCachedAuthStatus_entry (st : AgentState) (uid : String) (now : Nat)
    (fr : Except String (List Conn)) :
    mapGet (getCachedAuthStatus st uid now fr).state.authStatusCache ("auth-" ++ uid)
      = some (getCachedAuthStatus st uid now fr).result := by
  unfold getCachedAuthStatus
  cases hg : mapGet st.authStatusCache ("auth-" ++ uid) with
  | none => simp [hg, mapGet_mapSet_self]
  | some cached =>
      cases hv : isCacheValid cached.timestamp now with
      | true => simp [hg, hv]
      | false => simp [hg, hv, mapGet_mapSet_self]

/-- `freshAuthStatus` always stamps the current time. -/
theorem freshAuthStatus_timestamp (fr : Except String (List Conn)) (now : Nat) :
    (freshAuthStatus fr now).timestamp = now := by
  cases fr <;> simp [freshAuthStatus]

/-- A TTL-valid cached auth entry is returned without fetching. -/
theorem getCachedAuthStatus_hit (st : AgentState) (uid : String) (now : Nat)
    (fr : Except String (List Conn)) (cached : AuthStatus)
    (hg : mapGet st.authStatusCache ("auth-" ++ uid) = some cached)
    (hv : isCacheValid cached.timestamp now = true) :
    getCachedAuthStatus st uid now fr = ⟨st, cached, false⟩ := by
  unfold getCachedAuthStatus
  simp [hg, hv]

/-- A present tools entry is returned without fetching, no TTL involved. -/
theorem getCachedTools_hit (env : Env) (st : AgentState) (ck url uid : String)
    (now : Nat) (fr : Except String ToolSet) (tools : ToolSet)
    (hg : mapGet st.toolsCache ck = some tools) :
    getCachedTools env st ck url uid now fr = ⟨st, tools, false, [], []⟩ := by
  unfold getCachedTools
  simp [hg]

/-- After a successful `getCachedTools` call, the returned tool set is
exactly the entry stored under the cache key. -/
theorem getCachedTools_ok_entry (env : Env) (st : AgentState) (ck url uid : String)
    (now : Nat) (tools : ToolSet) :
    mapGet (getCachedTools env st ck url uid now (.ok tools)).state.toolsCache ck
      = some (getCachedTools env st ck url uid now (.ok tools)).result := by
  unfold getCachedTools
  cases hg : mapGet st.toolsCache ck with
  | some t => simp [hg]
  | none => cases hc : mapGet st.mcpClientCache ck <;> simp [hg, hc, mapGet_mapSet_self]

end GmailCache

namespace GmailCache

/-! ### Claim theorems -/

/-- C4: invalidating a present ClientHandle entry (`cleanupMCPClient`)
attempts disposal of the underlying connection and removes both the
client-handle entry and the tool-set entry for that key; both removals
happen for every disposal outcome (the disposal error is only recorded
in the error report, never allowed to keep the entry alive). -/
theorem cleanupMCPClient_disposes_and_removes (env : Env) (st : AgentState)
    (key : String) (client : MCPClient)
    (h : mapGet st.mcpClientCache key = some client) :
    (cleanupMCPClient env st key).disposed = [client.id]
    ∧ (cleanupMCPClient env st key).errors
        = (if env.disposeFails client.id then [client.id] else [])
    ∧ mapGet (cleanupMCPClient env st key).state.mcpClientCache key = none
    ∧ mapGet (cleanupMCPClient env st key).state.toolsCache key = none := by
  simp [cleanupMCPClient, h, mapGet_mapDelete_self]

/-- Witness for C4 at a concrete state whose disposal throws: the
removals still happen and the error is reported. -/
theorem cleanupMCPClient_disposes_and_removes_witness :
    mapGet (AgentState.mk [("k", MCPClient.mk "c1" "u")] [("k", ["T"])] [] []).mcpClientCache "k"
      = some (MCPClient.mk "c1" "u")
    ∧ ((cleanupMCPClient ⟨fun _ => true⟩
          (AgentState.mk [("k", MCPClient.mk "c1" "u")] [("k", ["T"])] [] []) "k").disposed
          = [(MCPClient.mk "c1" "u").id]
        ∧ (cleanupMCPClient ⟨fun _ => true⟩
          (AgentState.mk [("k", MCPClient.mk "c1" "u")] [("k", ["T"])] [] []) "k").errors
          = (if (⟨fun _ => true⟩ : Env).disposeFails (MCPClient.mk "c1" "u").id
              then [(MCPClient.mk "c1" "u").id] else [])
        ∧ mapGet (cleanupMCPClient ⟨fun _ => true⟩
          (AgentState.mk [("k", MCPClient.mk "c1" "u")] [("k", ["T"])] [] []) "k").state.mcpClientCache "k"
          = none
        ∧ mapGet (cleanupMCPClient ⟨fun _ => true⟩
          (AgentState.mk [("k", MCPClient.mk "c1" "u")] [("k", ["T"])] [] []) "k").state.toolsCache "k"
          = none) :=
  ⟨by decide,
   cleanupMCPClient_disposes_and_removes ⟨fun _ => true⟩
     (AgentState.mk [("k", MCPClient.mk "c1" "u")] [("k", ["T"])] [] []) "k"
     (MCPClient.mk "c1" "u") (by decide)⟩

/-- C7: ClientHandle disposal is idempotent: a second `cleanupMCPClient`
on the same key produces no disposal attempt, no error, and leaves the
state exactly as after the first call; likewise, on a key with no
present handle the call disposes nothing and only deletes any remaining
tool-set entry. -/
theorem cleanupMCPClient_idempotent (env : Env) (st : AgentState) (key : String) :
    ((cleanupMCPClient env (cleanupMCPClient env st key).state key).disposed = []
      ∧ (cleanupMCPClient env (cleanupMCPClient env st key).state key).errors = []
      ∧ (cleanupMCPClient env (cleanupMCPClient env st key).state key).state
          = (cleanupMCPClient env st key).state)
    ∧ ((cleanupMCPClient env
          { st with mcpClientCache := mapDelete st.mcpClientCache key } key).disposed = []
      ∧ (cleanupMCPClient env
          { st with mcpClientCache := mapDelete st.mcpClientCache key } key).errors = []
      ∧ (cleanupMCPClient env
          { st with mcpClientCache := mapDelete st.mcpClientCache key } key).state
          = { st with mcpClientCache := mapDelete st.mcpClientCache key,
                      toolsCache := mapDelete st.toolsCache key }) := by
  constructor
  · unfold cleanupMCPClient
    cases hg : mapGet st.mcpClientCache key with
    | some c => simp [hg, mapGet_mapDelete_self, mapDelete_mapDelete_self]
    | none => simp [hg, mapDelete_mapDelete_self]
  · simp [cleanupMCPClient, mapGet_mapDelete_self]

/-- C8: invalidation followed immediately by a get triggers a fresh
fetch regardless of TTL: after the `authorize_gmail` tool deletes the
auth-status entry, the next `getCachedAuthStatus` performs the remote
call whatever the oracle and time are; after `cleanupMCPClient` deletes
a tools entry, the next `getCachedTools` calls `getTools()` again. -/
theorem invalidate_then_getOrFetch_fetches (env : Env) (st : AgentState)
    (userId : String) (connectionRequest : ConnReq) (now : Nat)
    (fr : Except String (List Conn)) (stT : AgentState) (key url uid : String)
    (now2 : Nat) (fr2 : Except String ToolSet) :
    (getCachedAuthStatus (authorizeToolExecute st userId (.ok connectionRequest)).state
        userId now fr).fetched = true
    ∧ (getCachedTools env (cleanupMCPClient env stT key).state key url uid now2 fr2).fetched
        = true := by
  constructor
  · simp [authorizeToolExecute, getCachedAuthStatus, mapGet_mapDelete_self]
  · unfold cleanupMCPClient
    cases hg : mapGet stT.mcpClientCache key with
    | some c =>
        unfold getCachedTools
        simp only [hg, mapGet_mapDelete_self]
        cases hc : mapGet (mapDelete stT.mcpClientCache key) key <;>
          cases fr2 <;> simp [cleanupMCPClient]
    | none =>
        unfold getCachedTools
        simp only [hg, mapGet_mapDelete_self]
        cases hc : mapGet stT.mcpClientCache key <;>
          cases fr2 <;> simp [cleanupMCPClient, hg]

/-- C10: `GmailAuth.checkConnection` turns every provider error into a
plain value with `connected = false` and an error string (it never
rethrows), and `getConnectedAccountId` therefore returns null on a
failing provider query; on success no error field is set. -/
theorem checkConnection_error_is_value (e : String) (items : List Conn) :
    (checkConnection (.error e)).connected = false
    ∧ (checkConnection (.error e)).error
        = some ("Failed to check Gmail connection: " ++ e)
    ∧ getConnectedAccountId (.error e) = none
    ∧ (checkConnection (.ok items)).error = none := by
  simp [checkConnection, getConnectedAccountId]

end GmailCache

namespace GmailCache

/-- C6: a `getOrFetch` immediately followed by a second `getOrFetch`
within the TTL window returns the identical stored value without a
second fetch — for the auth-status kind after any first call, and for
the tool-set kind after a successful first call (for which presence
alone, not the TTL, decides). -/
theorem second_getOrFetch_returns_cached (env : Env) (stA : AgentState)
    (uid : String) (now : Nat) (fr : Except String (List Conn)) (now' : Nat)
    (fr' : Except String (List Conn)) (stT : AgentState) (ck url tuid : String)
    (tnow : Nat) (tools : ToolSet) (tnow' : Nat) (frT : Except String ToolSet)
    (h : now' - (getCachedAuthStatus stA uid now fr).result.timestamp < CACHE_TTL) :
    (getCachedAuthStatus (getCachedAuthStatus stA uid now fr).state uid now' fr'
        = ⟨(getCachedAuthStatus stA uid now fr).state,
           (getCachedAuthStatus stA uid now fr).result, false⟩)
    ∧ (getCachedTools env (getCachedTools env stT ck url tuid tnow (.ok tools)).state
          ck url tuid tnow' frT
        = ⟨(getCachedTools env stT ck url tuid tnow (.ok tools)).state,
           (getCachedTools env stT ck url tuid tnow (.ok tools)).result, false, [], []⟩) := by
  constructor
  · exact getCachedAuthStatus_hit _ uid now' fr' _
      (getCachedAuthStatus_entry stA uid now fr)
      (by simpa [isCacheValid] using h)
  · exact getCachedTools_hit env _ ck url tuid tnow' frT _
      (getCachedTools_ok_entry env stT ck url tuid tnow tools)

/-- Witness for C6 at concrete inputs: the second call one millisecond
later returns the first call's stored value with no fetch. -/
theorem second_getOrFetch_returns_cached_witness :
    (1 - (getCachedAuthStatus emptyState "u1" 0 (.ok [])).result.timestamp < CACHE_TTL)
    ∧ ((getCachedAuthStatus (getCachedAuthStatus emptyState "u1" 0 (.ok [])).state "u1" 1 (.ok [])
          = ⟨(getCachedAuthStatus emptyState "u1" 0 (.ok [])).state,
             (getCachedAuthStatus emptyState "u1" 0 (.ok [])).result, false⟩)
        ∧ (getCachedTools ⟨fun _ => false⟩
              (getCachedTools ⟨fun _ => false⟩ emptyState "k1" "https://x" "u1" 0 (.ok ["GMAIL_SEND"])).state
              "k1" "https://x" "u1" 1 (.ok ["OTHER"])
            = ⟨(getCachedTools ⟨fun _ => false⟩ emptyState "k1" "https://x" "u1" 0 (.ok ["GMAIL_SEND"])).state,
               (getCachedTools ⟨fun _ => false⟩ emptyState "k1" "https://x" "u1" 0 (.ok ["GMAIL_SEND"])).result,
               false, [], []⟩)) :=
  ⟨by decide,
   second_getOrFetch_returns_cached ⟨fun _ => false⟩ emptyState "u1" 0 (.ok []) 1 (.ok [])
     emptyState "k1" "https://x" "u1" 0 ["GMAIL_SEND"] 1 (.ok ["OTHER"]) (by decide)⟩

/-- C2 counterexample: the tool-set kind is not time-expired.  Tools
cached at t=0 are still returned, without any fetch, at t=600000 ms
(twice the 5-minute TTL), contradicting the claim that reaching the TTL
makes the next call invoke the fetch function again. -/
theorem toolsCache_ignores_ttl_counterexample :
    CACHE_TTL ≤ 600000 - 0
    ∧ (getCachedTools ⟨fun _ => false⟩
        (getCachedTools ⟨fun _ => false⟩ emptyState "k1" "https://x" "u1" 0 (.ok ["GMAIL_SEND"])).state
        "k1" "https://x" "u1" 600000 (.ok ["OTHER"])).fetched = false
    ∧ (getCachedTools ⟨fun _ => false⟩
        (getCachedTools ⟨fun _ => false⟩ emptyState "k1" "https://x" "u1" 0 (.ok ["GMAIL_SEND"])).state
        "k1" "https://x" "u1" 600000 (.ok ["OTHER"])).result = ["GMAIL_SEND"] := by
  decide

/-- C2 as amended: only the auth-status kind is time-expired.  Once a
stored auth entry's age reaches the 5-minute TTL, the next
`getCachedAuthStatus` invokes the remote fetch again and overwrites the
stored value and timestamp with the freshly fetched status. -/
theorem authStatus_ttl_expiry_refetches (st : AgentState) (uid : String)
    (now : Nat) (fr : Except String (List Conn)) (entry : AuthStatus)
    (h1 : mapGet st.authStatusCache ("auth-" ++ uid) = some entry)
    (h2 : CACHE_TTL ≤ now - entry.timestamp) :
    (getCachedAuthStatus st uid now fr).fetched = true
    ∧ (getCachedAuthStatus st uid now fr).result = freshAuthStatus fr now
    ∧ (getCachedAuthStatus st uid now fr).result.timestamp = now
    ∧ mapGet (getCachedAuthStatus st uid now fr).state.authStatusCache ("auth-" ++ uid)
        = some (freshAuthStatus fr now) := by
  have hv : isCacheValid entry.timestamp now = false := by
    simp only [isCacheValid, decide_eq_false_iff_not, not_lt]
    exact h2
  refine ⟨?_, ?_, ?_, ?_⟩ <;>
    simp [getCachedAuthStatus, h1, hv, mapGet_mapSet_self, freshAuthStatus_timestamp]

/-- Witness for C2's amended theorem: an entry stamped at t=0 is
overwritten by a fetch at t=300000 ms (exactly the TTL). -/
theorem authStatus_ttl_expiry_refetches_witness :
    mapGet (AgentState.mk [] [] [("auth-u1", AuthStatus.mk false none 0)] []).authStatusCache
        ("auth-" ++ "u1") = some (AuthStatus.mk false none 0)
    ∧ CACHE_TTL ≤ 300000 - (AuthStatus.mk false none 0).timestamp
    ∧ ((getCachedAuthStatus (AgentState.mk [] [] [("auth-u1", AuthStatus.mk false none 0)] [])
          "u1" 300000 (.ok [Conn.mk "c1" "gmail" "ACTIVE"])).fetched = true
        ∧ (getCachedAuthStatus (AgentState.mk [] [] [("auth-u1", AuthStatus.mk false none 0)] [])
          "u1" 300000 (.ok [Conn.mk "c1" "gmail" "ACTIVE"])).result
          = freshAuthStatus (.ok [Conn.mk "c1" "gmail" "ACTIVE"]) 300000
        ∧ (getCachedAuthStatus (AgentState.mk [] [] [("auth-u1", AuthStatus.mk false none 0)] [])
          "u1" 300000 (.ok [Conn.mk "c1" "gmail" "ACTIVE"])).result.timestamp = 300000
        ∧ mapGet (getCachedAuthStatus (AgentState.mk [] [] [("auth-u1", AuthStatus.mk false none 0)] [])
          "u1" 300000 (.ok [Conn.mk "c1" "gmail" "ACTIVE"])).state.authStatusCache ("auth-" ++ "u1")
          = some (freshAuthStatus (.ok [Conn.mk "c1" "gmail" "ACTIVE"]) 300000)) :=
  ⟨by decide, by decide,
   authStatus_ttl_expiry_refetches (AgentState.mk [] [] [("auth-u1", AuthStatus.mk false none 0)] [])
     "u1" 300000 (.ok [Conn.mk "c1" "gmail" "ACTIVE"]) (AuthStatus.mk false none 0)
     (by decide) (by decide)⟩

end GmailCache

namespace GmailCache

/-- On a tools-cache miss, `getCachedTools` always calls `getTools()`,
whatever the oracle outcome. -/
theorem getCachedTools_miss_fetches (env : Env) (st : AgentState) (ck url uid : String)
    (now : Nat) (fr : Except String ToolSet)
    (hmiss : mapGet st.toolsCache ck = none) :
    (getCachedTools env st ck url uid now fr).fetched = true := by
  unfold getCachedTools
  simp only [hmiss]
  cases hc : mapGet st.mcpClientCache ck <;> cases fr <;> simp

/-- On a tools-cache miss with a failing `getTools()`, `getCachedTools`
returns an empty tool set and leaves both the tool-set and the
client-handle slot absent. -/
theorem getCachedTools_error_path (env : Env) (st : AgentState) (ck url uid : String)
    (now : Nat) (e : String)
    (hmiss : mapGet st.toolsCache ck = none) :
    (getCachedTools env st ck url uid now (.error e)).result = []
    ∧ (getCachedTools env st ck url uid now (.error e)).fetched = true
    ∧ mapGet (getCachedTools env st ck url uid now (.error e)).state.toolsCache ck = none
    ∧ mapGet (getCachedTools env st ck url uid now (.error e)).state.mcpClientCache ck
        = none := by
  unfold getCachedTools
  simp only [hmiss]
  cases hc : mapGet st.mcpClientCache ck <;>
    simp [cleanupMCPClient, hc, mapGet_mapSet_self, mapGet_mapDelete_self]

/-- C1 counterexample: a failing auth fetch IS cached.  Starting from
the empty state, `getCachedAuthStatus` with a failing oracle leaves the
`auth-u1` slot present (a not-connected record stamped at the current
time), and the immediately subsequent call returns that memoized
failure without invoking the fetch function again — contradicting the
claim that the slot is left absent and the next call retries. -/
theorem failed_fetch_cached_counterexample :
    mapGet (getCachedAuthStatus emptyState "u1" 0 (.error "network down")).state.authStatusCache
        "auth-u1" = some (AuthStatus.mk false none 0)
    ∧ (getCachedAuthStatus (getCachedAuthStatus emptyState "u1" 0 (.error "network down")).state
        "u1" 1 (.ok [Conn.mk "c1" "gmail" "ACTIVE"])).fetched = false
    ∧ (getCachedAuthStatus (getCachedAuthStatus emptyState "u1" 0 (.error "network down")).state
        "u1" 1 (.ok [Conn.mk "c1" "gmail" "ACTIVE"])).result
        = AuthStatus.mk false none 0 := by
  decide

/-- C1 as amended: the two kinds handle a failing fetch differently and
neither propagates the failure.  `getCachedAuthStatus` catches it,
caches a not-connected record with a fresh timestamp under the
(previously absent) slot and returns it, so the next call within the
TTL window returns the memoized failure without fetching.
`getCachedTools` catches it, disposes the client, leaves both the
tool-set and client-handle slots absent and returns an empty tool set,
so the next call invokes the fetch function again. -/
theorem failed_fetch_behavior (stA : AgentState) (uid eA : String) (now now' : Nat)
    (frA' : Except String (List Conn)) (env : Env) (stT : AgentState)
    (ck url tuid eT : String) (tnow tnow' : Nat) (frT' : Except String ToolSet)
    (h : now' - now < CACHE_TTL) :
    ((getCachedAuthStatus { stA with authStatusCache := mapDelete stA.authStatusCache ("auth-" ++ uid) } uid now (.error eA)).fetched = true
      ∧ (getCachedAuthStatus { stA with authStatusCache := mapDelete stA.authStatusCache ("auth-" ++ uid) } uid now (.error eA)).result = AuthStatus.mk false none now
      ∧ mapGet (getCachedAuthStatus { stA with authStatusCache := mapDelete stA.authStatusCache ("auth-" ++ uid) } uid now (.error eA)).state.authStatusCache ("auth-" ++ uid) = some (AuthStatus.mk false none now)
      ∧ (getCachedAuthStatus (getCachedAuthStatus { stA with authStatusCache := mapDelete stA.authStatusCache ("auth-" ++ uid) } uid now (.error eA)).state uid now' frA').fetched = false
      ∧ (getCachedAuthStatus (getCachedAuthStatus { stA with authStatusCache := mapDelete stA.authStatusCache ("auth-" ++ uid) } uid now (.error eA)).state uid now' frA').result = AuthStatus.mk false none now)
    ∧ ((getCachedTools env { stT with toolsCache := mapDelete stT.toolsCache ck } ck url tuid tnow (.error eT)).result = []
      ∧ mapGet (getCachedTools env { stT with toolsCache := mapDelete stT.toolsCache ck } ck url tuid tnow (.error eT)).state.toolsCache ck = none
      ∧ mapGet (getCachedTools env { stT with toolsCache := mapDelete stT.toolsCache ck } ck url tuid tnow (.error eT)).state.mcpClientCache ck = none
      ∧ (getCachedTools env (getCachedTools env { stT with toolsCache := mapDelete stT.toolsCache ck } ck url tuid tnow (.error eT)).state ck url tuid tnow' frT').fetched = true) := by
  have hmissA : mapGet (mapDelete stA.authStatusCache ("auth-" ++ uid)) ("auth-" ++ uid) = none :=
    mapGet_mapDelete_self _ _
  have hfA : (getCachedAuthStatus { stA with authStatusCache := mapDelete stA.authStatusCache ("auth-" ++ uid) } uid now (.error eA)).fetched = true := by
    unfold getCachedAuthStatus
    simp [hmissA]
  have hresA : (getCachedAuthStatus { stA with authStatusCache := mapDelete stA.authStatusCache ("auth-" ++ uid) } uid now (.error eA)).result = AuthStatus.mk false none now := by
    unfold getCachedAuthStatus
    simp [hmissA, freshAuthStatus]
  have hentry := getCachedAuthStatus_entry { stA with authStatusCache := mapDelete stA.authStatusCache ("auth-" ++ uid) } uid now (.error eA)
  rw [hresA] at hentry
  have hhit := getCachedAuthStatus_hit _ uid now' frA' (AuthStatus.mk false none now) hentry
    (by simpa [isCacheValid] using h)
  have hmissT : mapGet (mapDelete stT.toolsCache ck) ck = none := mapGet_mapDelete_self _ _
  have hT := getCachedTools_error_path env { stT with toolsCache := mapDelete stT.toolsCache ck } ck url tuid tnow eT hmissT
  refine ⟨⟨hfA, hresA, hentry, ?_, ?_⟩, hT.1, hT.2.2.1, hT.2.2.2,
    getCachedTools_miss_fetches env _ ck url tuid tnow' frT' hT.2.2.1⟩
  · rw [hhit]
  · rw [hhit]

/-- Witness for C1's amended theorem at concrete inputs. -/
theorem failed_fetch_behavior_witness :
    (1 - 0 < CACHE_TTL)
    ∧ (getCachedAuthStatus
        { emptyState with authStatusCache := mapDelete emptyState.authStatusCache ("auth-" ++ "u1") }
        "u1" 0 (.error "boom")).fetched = true
    ∧ (getCachedTools (Env.mk fun _ => false) (getCachedTools (Env.mk fun _ => false)
        { emptyState with toolsCache := mapDelete emptyState.toolsCache "k1" }
        "k1" "https://x" "u1" 0 (.error "down")).state
        "k1" "https://x" "u1" 1 (.ok ["T"])).fetched = true := by
  have h := failed_fetch_behavior emptyState "u1" "boom" 0 1 (.ok [])
    (Env.mk fun _ => false) emptyState "k1" "https://x" "u1" "down" 0 1 (.ok ["T"])
    (by decide)
  exact ⟨by decide, h.1.1, h.2.2.2.2⟩

end GmailCache

namespace GmailCache

/-- C9 counterexample: a supplied empty-string userId is NOT returned
as-is.  JS truthiness makes `getUserId` treat it as absent: the call
returns a freshly generated UUID and writes it into the session map,
contradicting the claim that the exact supplied string is returned with
the session map unchanged. -/
theorem getUserId_empty_string_counterexample :
    (getUserId [] (some (RuntimeCtx.mk (some "") (some "s1"))) "00000000-aaaa").userId
        = "00000000-aaaa"
    ∧ (getUserId [] (some (RuntimeCtx.mk (some "") (some "s1"))) "00000000-aaaa").sessions
        = [("s1", "00000000-aaaa")] := by
  decide

/-- C9 as amended: a supplied NON-EMPTY userId is returned exactly, with
the session map untouched (an empty string is treated as absent by JS
truthiness); without a truthy userId, the first call for a session
stores the freshly generated UUID under the session id and every
subsequent call for the same session returns that same stored id. -/
theorem getUserId_stable_per_session (sessions sessions2 : List (String × String))
    (sid u fresh fresh2 : String)
    (h1 : u ≠ "") (h2 : mapGet sessions sid = none) (h3 : sid ≠ "") :
    getUserId sessions (some (RuntimeCtx.mk (some u) (some sid))) fresh
        = GetUserIdResult.mk u sessions
    ∧ (getUserId sessions (some (RuntimeCtx.mk none (some sid))) fresh).userId = fresh
    ∧ mapGet (getUserId sessions (some (RuntimeCtx.mk none (some sid))) fresh).sessions sid
        = some fresh
    ∧ (getUserId (getUserId sessions2 (some (RuntimeCtx.mk none (some sid))) fresh).sessions
          (some (RuntimeCtx.mk none (some sid))) fresh2).userId
        = (getUserId sessions2 (some (RuntimeCtx.mk none (some sid))) fresh).userId := by
  refine ⟨?_, ?_, ?_, ?_⟩
  · simp [getUserId, jsTruthy, h1]
  · simp [getUserId, jsTruthy, h2, h3]
  · simp [getUserId, jsTruthy, h2, h3, mapGet_mapSet_self]
  · cases hg : mapGet sessions2 sid with
    | some existing => simp [getUserId, jsTruthy, h3, hg]
    | none => simp [getUserId, jsTruthy, h3, hg, mapGet_mapSet_self]

/-- Witness for C9's amended theorem at concrete inputs. -/
theorem getUserId_stable_per_session_witness :
    ("alice" ≠ "" ∧ mapGet ([] : List (String × String)) "s1" = none ∧ "s1" ≠ "")
    ∧ getUserId [] (some (RuntimeCtx.mk (some "alice") (some "s1"))) "uuid-1"
        = GetUserIdResult.mk "alice" []
    ∧ (getUserId (getUserId [("t2", "bob")] (some (RuntimeCtx.mk none (some "s1"))) "uuid-1").sessions
          (some (RuntimeCtx.mk none (some "s1"))) "uuid-2").userId
        = (getUserId [("t2", "bob")] (some (RuntimeCtx.mk none (some "s1"))) "uuid-1").userId :=
  ⟨⟨by decide, by decide, by decide⟩,
   (getUserId_stable_per_session [] [("t2", "bob")] "s1" "alice" "uuid-1" "uuid-2"
      (by decide) (by decide) (by decide)).1,
   (getUserId_stable_per_session [] [("t2", "bob")] "s1" "alice" "uuid-1" "uuid-2"
      (by decide) (by decide) (by decide)).2.2.2⟩

/-- C3 (code bug): neither auth-status invalidation path removes the
client/tool entries derived from a connected auth state.  For a user
whose previous auth state was connected with connectionId `abc`, the
tools path keys the client and tool set under `gmail-u1-abc`, but
`clearGmailAgentCache` only cleans the fixed keys `gmail-u1-unauth` and
`gmail-u1-null`, and the `authorize_gmail` tool deletes only the
auth-status entry — so the `gmail-u1-abc` client and tool entries
survive both invalidation events, although the code's own comment says
it clears both auth states for the user. -/
theorem clearGmailAgentCache_leaves_connected_entries :
    mapGet (clearGmailAgentCache (Env.mk fun _ => false)
        (AgentState.mk [("gmail-u1-abc", MCPClient.mk "cid1" "https://m")]
          [("gmail-u1-abc", ["GMAIL_SEND"])]
          [("auth-u1", AuthStatus.mk true (some "abc") 0)] [])
        "u1").state.mcpClientCache "gmail-u1-abc"
      = some (MCPClient.mk "cid1" "https://m")
    ∧ mapGet (clearGmailAgentCache (Env.mk fun _ => false)
        (AgentState.mk [("gmail-u1-abc", MCPClient.mk "cid1" "https://m")]
          [("gmail-u1-abc", ["GMAIL_SEND"])]
          [("auth-u1", AuthStatus.mk true (some "abc") 0)] [])
        "u1").state.toolsCache "gmail-u1-abc"
      = some ["GMAIL_SEND"]
    ∧ (authorizeToolExecute
        (AgentState.mk [("gmail-u1-abc", MCPClient.mk "cid1" "https://m")]
          [("gmail-u1-abc", ["GMAIL_SEND"])]
          [("auth-u1", AuthStatus.mk true (some "abc") 0)] [])
        "u1" (.ok (ConnReq.mk "https://redirect" "conn-2"))).state.mcpClientCache
      = [("gmail-u1-abc", MCPClient.mk "cid1" "https://m")]
    ∧ (authorizeToolExecute
        (AgentState.mk [("gmail-u1-abc", MCPClient.mk "cid1" "https://m")]
          [("gmail-u1-abc", ["GMAIL_SEND"])]
          [("auth-u1", AuthStatus.mk true (some "abc") 0)] [])
        "u1" (.ok (ConnReq.mk "https://redirect" "conn-2"))).state.toolsCache
      = [("gmail-u1-abc", ["GMAIL_SEND"])] := by
  decide

end GmailCache

namespace GmailCache

/-- One step of the shutdown sweep, by definition. -/
theorem cleanupKeys_cons (env : Env) (k : String) (ks : List String) (st : AgentState) :
    cleanupKeys env (k :: ks) st
      = CacheEffect.mk (cleanupKeys env ks (cleanupMCPClient env st k).state).state
          ((cleanupMCPClient env st k).disposed
            ++ (cleanupKeys env ks (cleanupMCPClient env st k).state).disposed)
          ((cleanupMCPClient env st k).errors
            ++ (cleanupKeys env ks (cleanupMCPClient env st k).state).errors) := rfl

/-- Sweeping the client map over exactly its own (duplicate-free) key
list empties it and disposes each present client exactly once, in map
order, whatever the disposal outcomes are. -/
theorem cleanupKeys_full_sweep (env : Env) (m : List (String × MCPClient)) :
    ∀ (tc : List (String × ToolSet)) (ac : List (String × AuthStatus))
      (uc : List (String × String)),
    (m.map Prod.fst).Nodup →
    (cleanupKeys env (m.map Prod.fst) (AgentState.mk m tc ac uc)).state.mcpClientCache = []
    ∧ (cleanupKeys env (m.map Prod.fst) (AgentState.mk m tc ac uc)).disposed
        = m.map (fun p => p.2.id) := by
  induction m with
  | nil =>
      intro tc ac uc _
      simp [cleanupKeys]
  | cons p rest ih =>
      intro tc ac uc hnd
      obtain ⟨k, c⟩ := p
      simp only [List.map_cons, List.nodup_cons] at hnd
      obtain ⟨hk, hrest⟩ := hnd
      have hget : mapGet ((k, c) :: rest) k = some c := by simp [mapGet]
      have hdel : mapDelete ((k, c) :: rest) k = rest := by
        simp [mapDelete, mapDelete_eq_self_of_not_mem rest k hk]
      have hstep : cleanupMCPClient env (AgentState.mk ((k, c) :: rest) tc ac uc) k
          = CacheEffect.mk (AgentState.mk rest (mapDelete tc k) ac uc) [c.id]
              (if env.disposeFails c.id then [c.id] else []) := by
        simp [cleanupMCPClient, hget, hdel]
      have ihr := ih (mapDelete tc k) ac uc hrest
      rw [List.map_cons, cleanupKeys_cons, hstep]
      exact ⟨ihr.1, by rw [List.map_cons]; simpa using ihr.2⟩

/-- C5: `cleanupGmailAgent` removes every entry across all four cache
maps and disposes each present ClientHandle exactly once; a disposal
error for one key does not abort the sweep (the environment is
arbitrary, so any subset of the disposals may throw): every other
handle is still disposed and the final state is empty. -/
theorem cleanupGmailAgent_clears_all (env : Env) (st : AgentState)
    (h : (st.mcpClientCache.map Prod.fst).Nodup) :
    (cleanupGmailAgent env st).state = emptyState
    ∧ (cleanupGmailAgent env st).disposed = st.mcpClientCache.map (fun p => p.2.id) := by
  obtain ⟨m, tc, ac, uc⟩ := st
  have hs := cleanupKeys_full_sweep env m tc ac uc h
  constructor
  · show AgentState.mk
        (cleanupKeys env (m.map Prod.fst) (AgentState.mk m tc ac uc)).state.mcpClientCache
        [] [] [] = emptyState
    rw [hs.1]
    rfl
  · exact hs.2

/-- Witness for C5: two clients, the first one's disconnect throwing;
both are disposed and the state ends empty. -/
theorem cleanupGmailAgent_clears_all_witness :
    ((AgentState.mk [("k1", MCPClient.mk "cid1" "u"), ("k2", MCPClient.mk "cid2" "u")]
        [("k1", ["T"])] [("auth-u1", AuthStatus.mk true (some "abc") 0)]
        [("s1", "uid")]).mcpClientCache.map Prod.fst).Nodup
    ∧ (cleanupGmailAgent (Env.mk fun s => s == "cid1")
        (AgentState.mk [("k1", MCPClient.mk "cid1" "u"), ("k2", MCPClient.mk "cid2" "u")]
          [("k1", ["T"])] [("auth-u1", AuthStatus.mk true (some "abc") 0)]
          [("s1", "uid")])).state = emptyState
    ∧ (cleanupGmailAgent (Env.mk fun s => s == "cid1")
        (AgentState.mk [("k1", MCPClient.mk "cid1" "u"), ("k2", MCPClient.mk "cid2" "u")]
          [("k1", ["T"])] [("auth-u1", AuthStatus.mk true (some "abc") 0)]
          [("s1", "uid")])).disposed
        = ((AgentState.mk [("k1", MCPClient.mk "cid1" "u"), ("k2", MCPClient.mk "cid2" "u")]
          [("k1", ["T"])] [("auth-u1", AuthStatus.mk true (some "abc") 0)]
          [("s1", "uid")]).mcpClientCache.map (fun p => p.2.id)) :=
  ⟨by decide,
   (cleanupGmailAgent_clears_all (Env.mk fun s => s == "cid1")
      (AgentState.mk [("k1", MCPClient.mk "cid1" "u"), ("k2", MCPClient.mk "cid2" "u")]
        [("k1", ["T"])] [("auth-u1", AuthStatus.mk true (some "abc") 0)]
        [("s1", "uid")]) (by decide)).1,
   (cleanupGmailAgent_clears_all (Env.mk fun s => s == "cid1")
      (AgentState.mk [("k1", MCPClient.mk "cid1" "u"), ("k2", MCPClient.mk "cid2" "u")]
        [("k1", ["T"])] [("auth-u1", AuthStatus.mk true (some "abc") 0)]
        [("s1", "uid")]) (by decide)).2⟩

end GmailCache
